import Mathlib

/-!
Verification of the Keycloak OAuth2/OIDC authentication module
(`app/auth/keycloak.py` of the keycloak-ollama-api backend).

The module is embedded shallowly: the async HTTP calls (JWKS fetch,
introspection POST) become explicit `Except Unit _` arguments standing for
the outcome of the network interaction, the mutable `KeycloakAuth` cache
fields become an explicit `AuthState` threaded through the functions, and
the `python-jose` library calls are modelled by a function reproducing the
library's observable check order (algorithm pinning, signature, iat, exp,
audience, issuer).  `HTTPException` keeps its status code and detail
string; response headers are not modelled.
-/

namespace Keycloak

/-- `fastapi.HTTPException` as raised by this module: a status code and a
human-readable detail string. -/
structure HTTPException where
  status_code : Nat
  detail : String
deriving DecidableEq, Repr

/-- One entry of the JWKS `keys` array.  `kid` is `key.get("kid")` (absent
keys give `none`); the public-key material (`kty`, `n`, `e`, `use`) is kept
opaque since no claim inspects it. -/
structure JWK where
  kid : Option String
  material : String
deriving DecidableEq, Repr

/-- The JSON document returned by the JWKS endpoint; `keys` is
`jwks.get("keys", [])`, so a missing `keys` field is the empty list. -/
structure JWKS where
  keys : List JWK
deriving DecidableEq, Repr

/-- The mutable JWKS-cache fields of `KeycloakAuth`:
`_jwks_cache` and `_jwks_cache_time`. -/
structure AuthState where
  jwks_cache : Option JWKS
  jwks_cache_time : Nat
deriving DecidableEq, Repr

/-- `_jwks_cache_duration = 3600` (one hour). -/
def jwks_cache_duration : Nat := 3600

/-- Error raised by `get_jwks` when no cache exists and the fetch fails
(keycloak.py lines 110-113). -/
def idpUnavailableExc : HTTPException :=
  ⟨503, "Unable to verify token: Keycloak unavailable"⟩

/-- `KeycloakAuth.get_jwks` (keycloak.py lines 84-113).  `fetch` is the
outcome of `client.get(self.jwks_url)` + `raise_for_status()` + `json()`:
`.error ()` stands for any raised `httpx.HTTPError` (network failure,
timeout, or HTTP error status).  Returns the result together with the
updated cache state. -/
def get_jwks (st : AuthState) (current_time : Nat) (fetch : Except Unit JWKS) :
    Except HTTPException JWKS × AuthState :=
  match st.jwks_cache with
  | some cached =>
      if current_time - st.jwks_cache_time < jwks_cache_duration then
        (.ok cached, st)
      else
        match fetch with
        | .ok fresh => (.ok fresh, ⟨some fresh, current_time⟩)
        | .error _ => (.ok cached, st)
  | none =>
      match fetch with
      | .ok fresh => (.ok fresh, ⟨some fresh, current_time⟩)
      | .error _ => (.error idpUnavailableExc, st)

/-- `realm_access.get("roles", [])` may itself be absent, so the inner
role list is optional. -/
structure AccessRoles where
  roles : Option (List String)
deriving DecidableEq, Repr

/-- The decoded claims dictionary, restricted to the fields this module
reads.  Absent dictionary keys are `none`; `resource_access` is a JSON
object keyed by client id, modelled as an association list. -/
structure Claims where
  preferred_username : Option String
  sub : Option String
  email : Option String
  realm_access : Option AccessRoles
  resource_access : Option (List (String × AccessRoles))
  groups : Option (List String)
deriving DecidableEq, Repr

/-- The pydantic `User` model (keycloak.py lines 30-39). -/
structure User where
  username : String
  email : Option String
  roles : List String
  groups : List String
  token_claims : Claims
deriving DecidableEq, Repr

/-- `claims.get("realm_access", {})` then `.get("roles", [])`
(keycloak.py lines 273-274). -/
def realm_roles_of (claims : Claims) : List String :=
  match claims.realm_access with
  | some ra => ra.roles.getD []
  | none => []

/-- `claims.get("resource_access", {})` then `.get(self.client_id, {})`
then `.get("roles", [])` (keycloak.py lines 277-279). -/
def client_roles_of (client_id : String) (claims : Claims) : List String :=
  match (claims.resource_access.getD []).lookup client_id with
  | some ca => ca.roles.getD []
  | none => []

/-- `claims.get("preferred_username", claims.get("sub"))`
(keycloak.py line 285). -/
def username_of (claims : Claims) : Option String :=
  match claims.preferred_username with
  | some u => some u
  | none => claims.sub

/-- `KeycloakAuth.extract_user_from_claims` (keycloak.py lines 259-290).
Python builds `roles` by extending realm roles with client roles and
passes `list(set(roles))` to `User`; since Python guarantees nothing
about the ordering of `list(set(..))`, the de-duplication is modelled by
`List.dedup` and only order-independent facts are proved about it.
When both `preferred_username` and `sub` are absent, `username` is
`None` and the pydantic constructor `User(username=None, ...)` raises a
`ValidationError` (`username: str` admits no `None`); that raise is the
`none` result. -/
def extract_user_from_claims (client_id : String) (claims : Claims) :
    Option User :=
  let roles := realm_roles_of claims ++ client_roles_of client_id claims
  let groups := claims.groups.getD []
  match username_of claims with
  | none => none
  | some uname =>
      some { username := uname
             email := claims.email
             roles := roles.dedup
             groups := groups
             token_claims := claims }

/-- Python `repr` of a string for simple role names (single-quoted). -/
def pyQuote (s : String) : String := "\u0027" ++ s ++ "\u0027"

/-- Python `repr` of a list of strings, as interpolated by the f-string
in `require_role`. -/
def pyReprList (l : List String) : String :=
  "[" ++ String.intercalate ", " (l.map pyQuote) ++ "]"

/-- The 403 raised by the role checker (keycloak.py lines 336-339). -/
def insufficientPermissionsExc (required_roles : List String) : HTTPException :=
  ⟨403, "Insufficient permissions. Required roles: " ++ pyReprList required_roles⟩

/-- The `role_checker` dependency produced by `require_role(required_roles)`
(keycloak.py lines 321-343): passes the user through when
`set(current_user.roles)` intersects `set(required_roles)`, otherwise
raises 403.  `List.inter` is empty exactly when the two sets are
disjoint. -/
def role_checker (required_roles : List String) (current_user : User) :
    Except HTTPException User :=
  if current_user.roles.inter required_roles = [] then
    .error (insufficientPermissionsExc required_roles)
  else
    .ok current_user

/-- The JOSE header of a token, as returned by
`jwt.get_unverified_header(token)`: the declared algorithm and the
optional key id (`header.get("kid")`). -/
structure JoseHeader where
  alg : String
  kid : Option String
deriving DecidableEq, Repr

/-- A bearer token as this module observes it through `python-jose`:
the header parse outcome (`.error ()` = `JWTError` on a malformed
header), whether its signature verifies under a given JWK, whether its
`iat` claim parses, its `exp` timestamp, whether its audience and issuer
match the configured values, and its decoded payload. -/
structure TokenData where
  header : Except Unit JoseHeader
  sigValidFor : JWK → Bool
  iatOk : Bool
  exp : Int
  audOk : Bool
  issOk : Bool
  payload : Claims

/-- `self.algorithms = ["RS256"]` (keycloak.py line 54): the fixed
algorithm list, set at construction, independent of any token. -/
def keycloakAlgorithms : List String := ["RS256"]

/-- 401 for a token whose header lacks a key id (keycloak.py
lines 130-134). -/
def missingKidExc : HTTPException := ⟨401, "Token missing key ID"⟩

/-- 401 when the key id is absent even after the forced refresh
(keycloak.py lines 150-153). -/
def keyNotFoundExc : HTTPException := ⟨401, "Unable to find signing key"⟩

/-- 401 when `jwt.get_unverified_header` raises `JWTError`
(keycloak.py lines 154-159). -/
def invalidFormatExc : HTTPException := ⟨401, "Invalid token format"⟩

/-- The key-id lookup loop `for key in jwks.get("keys", []): if
key.get("kid") == kid: return key` (keycloak.py lines 138-140). -/
def find_key (keys : List JWK) (kid : String) : Option JWK :=
  keys.find? (fun key => key.kid == some kid)

/-- Result of `get_signing_key`: the returned key or raised exception,
the cache state afterwards, and how many forced cache refreshes
(cache clear followed by a re-fetch attempt) were performed. -/
structure KeyLookup where
  result : Except HTTPException JWK
  state : AuthState
  forced_refreshes : Nat
deriving Repr

/-- `KeycloakAuth.get_signing_key` (keycloak.py lines 115-159).  `fetch1`
and `fetch2` are the outcomes of the network fetches that the first and
second `get_jwks` call would perform (each is consumed only if that call
misses the cache).  The `except JWTError` handler covers only
`jwt.get_unverified_header`; the `HTTPException`s raised inside the body
(including the 503 from `get_jwks`) propagate unchanged.  A `kid` of
`None` or `""` is falsy in Python, so both fail the `if not kid` test. -/
def get_signing_key (st : AuthState) (current_time : Nat)
    (header : Except Unit JoseHeader) (fetch1 fetch2 : Except Unit JWKS) :
    KeyLookup :=
  match header with
  | .error _ => ⟨.error invalidFormatExc, st, 0⟩
  | .ok h =>
      match h.kid with
      | none => ⟨.error missingKidExc, st, 0⟩
      | some kid =>
          if kid = "" then ⟨.error missingKidExc, st, 0⟩
          else
            match get_jwks st current_time fetch1 with
            | (.error e, st1) => ⟨.error e, st1, 0⟩
            | (.ok jwks, st1) =>
                match find_key jwks.keys kid with
                | some key => ⟨.ok key, st1, 0⟩
                | none =>
                    match get_jwks ⟨none, st1.jwks_cache_time⟩ current_time fetch2 with
                    | (.error e, st3) => ⟨.error e, st3, 1⟩
                    | (.ok jwks2, st3) =>
                        match find_key jwks2.keys kid with
                        | some key => ⟨.ok key, st3, 1⟩
                        | none => ⟨.error keyNotFoundExc, st3, 1⟩

/-- Failure modes of `jose.jwt.decode`: `ExpiredSignatureError` (a
`JWTError` subclass, raised by the `exp` check) versus every other
`JWTError`, carrying its message. -/
inductive JoseError where
  | expiredSignature
  | jwtError (msg : String)
deriving DecidableEq, Repr

/-- `jose.jwt.decode(token, key, algorithms, ...)` as called at
keycloak.py lines 185-197, reproducing the library's observable check
order: the declared `alg` must be in the allowed list and the signature
must verify (jws verification, before any claim validation), then `iat`,
then `exp` (strictly past `exp` with zero leeway raises
`ExpiredSignatureError`), then audience and issuer when the
corresponding `verify_aud` / `verify_iss` options are enabled. -/
def jose_decode (tok : TokenData) (key : JWK) (algorithms : List String)
    (verify_aud verify_iss : Bool) (current_time : Nat) :
    Except JoseError Claims :=
  match tok.header with
  | .error _ => .error (.jwtError "Error decoding token headers.")
  | .ok h =>
      if algorithms.contains h.alg = false then
        .error (.jwtError "The specified alg value is not allowed")
      else if tok.sigValidFor key = false then
        .error (.jwtError "Signature verification failed.")
      else if tok.iatOk = false then
        .error (.jwtError "Issued At claim (iat) must be an integer.")
      else if tok.exp < (current_time : Int) then
        .error .expiredSignature
      else if verify_aud && !tok.audOk then
        .error (.jwtError "Invalid audience")
      else if verify_iss && !tok.issOk then
        .error (.jwtError "Invalid issuer")
      else
        .ok tok.payload

/-- The 401 from the `except ExpiredSignatureError` handler
(keycloak.py lines 202-208). -/
def expiredTokenExc : HTTPException := ⟨401, "Token has expired"⟩

/-- The 401 from the generic `except JWTError` handler, interpolating
the error message (keycloak.py lines 209-215). -/
def invalidCredentialsExc (msg : String) : HTTPException :=
  ⟨401, "Could not validate credentials: " ++ msg⟩

/-- `KeycloakAuth.validate_token` (keycloak.py lines 161-215):
`get_signing_key`, then `jwt.decode` with the fixed
`self.algorithms = ["RS256"]` and the configured audience/issuer
verification flags; `ExpiredSignatureError` maps to the dedicated
expired 401, any other `JWTError` to the generic 401, and
`HTTPException`s from `get_signing_key` propagate. -/
def validate_token (st : AuthState) (current_time : Nat) (tok : TokenData)
    (fetch1 fetch2 : Except Unit JWKS) (verify_aud verify_iss : Bool) :
    Except HTTPException Claims × AuthState :=
  match get_signing_key st current_time tok.header fetch1 fetch2 with
  | ⟨.error e, st1, _⟩ => (.error e, st1)
  | ⟨.ok signing_key, st1, _⟩ =>
      match jose_decode tok signing_key keycloakAlgorithms
          verify_aud verify_iss current_time with
      | .ok payload => (.ok payload, st1)
      | .error .expiredSignature => (.error expiredTokenExc, st1)
      | .error (.jwtError msg) => (.error (invalidCredentialsExc msg), st1)

/-- The JSON body of an introspection response: the optional boolean
`active` flag and the claim fields returned alongside it. -/
structure IntrospectBody where
  active : Option Bool
  claims : Claims
deriving DecidableEq, Repr

/-- The introspection POST as observed by the module: `status_error` is
whether `raise_for_status()` raises (HTTP error status). -/
structure IntrospectResponse where
  status_error : Bool
  body : IntrospectBody
deriving DecidableEq, Repr

/-- 503 from the `except httpx.HTTPError` handler of `introspect_token`
(keycloak.py lines 252-257). -/
def introspectFailedExc : HTTPException := ⟨503, "Token introspection failed"⟩

/-- 401 for an introspection body without `active` set true
(keycloak.py lines 244-249). -/
def tokenNotActiveExc : HTTPException := ⟨401, "Token is not active"⟩

/-- `KeycloakAuth.introspect_token` (keycloak.py lines 217-257).  `resp`
is the outcome of the POST: `.error ()` stands for a raised
`httpx.HTTPError` (network failure or timeout); an HTTP error status
makes `raise_for_status()` raise `httpx.HTTPStatusError`, also caught by
the same handler.  `result.get("active", False)` is `active.getD false`;
the 401 raised for an inactive token is a `fastapi.HTTPException`, not
an `httpx.HTTPError`, so it is not caught by the handler. -/
def introspect_token (resp : Except Unit IntrospectResponse) :
    Except HTTPException IntrospectBody :=
  match resp with
  | .error _ => .error introspectFailedExc
  | .ok r =>
      if r.status_error then .error introspectFailedExc
      else if r.body.active.getD false = false then .error tokenNotActiveExc
      else .ok r.body

/-! ### Helper lemmas and concrete sample values -/

/-- A claims dictionary with every field absent. -/
def emptyClaims : Claims := ⟨none, none, none, none, none, none⟩

/-- A sample signing key, key set and fresh cache state. -/
def demoKey : JWK := ⟨some "kid1", "rsa-modulus-1"⟩

def demoJWKS : JWKS := ⟨[demoKey]⟩

def freshState : AuthState := ⟨some demoJWKS, 0⟩

/-- A sample user holding the editor and viewer roles. -/
def demoUser : User := ⟨"alice", none, ["editor", "viewer"], [], emptyClaims⟩

lemma inter_nil_iff (xs ys : List String) :
    xs.inter ys = [] ↔ ¬ ∃ r, r ∈ xs ∧ r ∈ ys := by
  constructor
  · intro h hex
    obtain ⟨r, hr1, hr2⟩ := hex
    exact List.inter_eq_nil_iff_disjoint.mp h hr1 hr2
  · intro hne
    exact List.inter_eq_nil_iff_disjoint.mpr (fun a ha1 ha2 => hne ⟨a, ha1, ha2⟩)

lemma extract_user_eq (client_id : String) (claims : Claims) (s : String)
    (h : username_of claims = some s) :
    extract_user_from_claims client_id claims =
      some ⟨s, claims.email,
            (realm_roles_of claims ++ client_roles_of client_id claims).dedup,
            claims.groups.getD [], claims⟩ := by
  unfold extract_user_from_claims
  rw [h]

/-! ### C1 -/

/-- C1: the guard produced by `require_role(R)` returns the user unchanged
iff the user's role set intersects `R`, otherwise it raises the 403
InsufficientPermissions exception whose detail names the required roles;
in particular a user with an empty role set fails every non-empty
requirement. -/
theorem require_role_guard_iff_intersects (R : List String) (U : User) :
    (role_checker R U = .ok U ↔ ∃ r, r ∈ U.roles ∧ r ∈ R) ∧
    ((¬ ∃ r, r ∈ U.roles ∧ r ∈ R) →
      role_checker R U = .error (insufficientPermissionsExc R)) ∧
    (U.roles = [] → R ≠ [] →
      role_checker R U = .error (insufficientPermissionsExc R)) := by
  refine ⟨?_, ?_, ?_⟩
  · by_cases h : U.roles.inter R = []
    · simp [role_checker, h, (inter_nil_iff _ _).mp h]
    · have hex : ∃ r, r ∈ U.roles ∧ r ∈ R := by
        by_contra hne
        exact h ((inter_nil_iff _ _).mpr hne)
      simp [role_checker, h, hex]
  · intro hne
    simp [role_checker, (inter_nil_iff _ _).mpr hne]
  · intro h0 _
    have h : U.roles.inter R = [] := by rw [h0]; rfl
    simp [role_checker, h]

/-- C1 witness: requirement `{admin, editor}`, roles `{editor, viewer}`:
the guard passes the user through. -/
theorem require_role_guard_iff_intersects_witness :
    role_checker ["admin", "editor"] demoUser = .ok demoUser :=
  (require_role_guard_iff_intersects ["admin", "editor"] demoUser).1.mpr
    ⟨"editor", by decide, by decide⟩

/-! ### C7 -/

/-- C7 counterexample: on a claims dictionary lacking both
`preferred_username` and `sub`, `extract_user_from_claims` does not
return a User: `User(username=None, ...)` raises a pydantic
ValidationError, so the function is not failure-free on every claims
dictionary. -/
theorem extract_user_empty_claims_fails :
    extract_user_from_claims "document-api" emptyClaims = none := rfl

/-- C7 (amended): on every claims dictionary carrying at least one of
`preferred_username` and `sub`, extraction returns a User, with the
other absent fields degrading to empty or default values. -/
theorem extract_user_total_when_username_present (client_id : String)
    (claims : Claims)
    (h : claims.preferred_username.isSome = true ∨ claims.sub.isSome = true) :
    ∃ u, extract_user_from_claims client_id claims = some u := by
  cases hp : claims.preferred_username with
  | some p => exact ⟨_, extract_user_eq client_id claims p (by unfold username_of; rw [hp])⟩
  | none =>
      cases hs : claims.sub with
      | some s =>
          exact ⟨_, extract_user_eq client_id claims s
            (by unfold username_of; rw [hp, hs])⟩
      | none => simp [hp, hs] at h

/-- C7 witness: claims carrying only `sub` yield a User. -/
theorem extract_user_total_when_username_present_witness :
    ∃ u, extract_user_from_claims "document-api"
      ⟨none, some "abc-123", none, none, none, none⟩ = some u :=
  extract_user_total_when_username_present "document-api"
    ⟨none, some "abc-123", none, none, none, none⟩ (Or.inr rfl)

/-! ### C8 -/

/-- C8: the extracted user's roles are exactly the duplicate-free union of
the realm-wide role list and the role list under the configured client id
in `resource_access`: membership is membership in either source, and each
member occurs exactly once. -/
theorem extract_user_roles_union_dedup (client_id : String) (claims : Claims)
    (u : User) (h : extract_user_from_claims client_id claims = some u)
    (r : String) :
    (r ∈ u.roles ↔
      r ∈ realm_roles_of claims ∨ r ∈ client_roles_of client_id claims) ∧
    (r ∈ u.roles → u.roles.count r = 1) := by
  have hroles : u.roles =
      (realm_roles_of claims ++ client_roles_of client_id claims).dedup := by
    cases husr : username_of claims with
    | none =>
        unfold extract_user_from_claims at h
        rw [husr] at h
        cases h
    | some s =>
        rw [extract_user_eq client_id claims s husr] at h
        cases h
        rfl
  rw [hroles]
  constructor
  · simp [List.mem_dedup]
  · intro hr
    exact List.count_eq_one_of_mem (List.nodup_dedup _) hr

/-- Claims whose realm roles `[admin, editor]` and client roles
`[editor, viewer]` overlap in `editor`. -/
def overlapClaims : Claims :=
  ⟨some "alice", none, none, some ⟨some ["admin", "editor"]⟩,
   some [("document-api", ⟨some ["editor", "viewer"]⟩)], none⟩

/-- The user extracted from `overlapClaims`. -/
def overlapUser : User :=
  ⟨"alice", none, ["admin", "editor", "viewer"], [], overlapClaims⟩

/-- C8 witness: with overlapping realm and client roles, the extracted
role list contains `editor`, and exactly once. -/
theorem extract_user_roles_union_dedup_witness :
    "editor" ∈ overlapUser.roles ∧ overlapUser.roles.count "editor" = 1 := by
  have h := extract_user_roles_union_dedup "document-api" overlapClaims
    overlapUser rfl "editor"
  exact ⟨h.1.mpr (Or.inl (by decide)), h.2 (h.1.mpr (Or.inl (by decide)))⟩

/-! ### C9 -/

/-- C9: the extracted username is the `preferred_username` claim when
present, and otherwise falls back to the `sub` claim. -/
theorem extract_user_username_fallback (client_id : String) (claims : Claims) :
    (∀ p u, claims.preferred_username = some p →
       extract_user_from_claims client_id claims = some u → u.username = p) ∧
    (∀ s u, claims.preferred_username = none → claims.sub = some s →
       extract_user_from_claims client_id claims = some u → u.username = s) := by
  constructor
  · intro p u hp hext
    have husr : username_of claims = some p := by unfold username_of; rw [hp]
    rw [extract_user_eq client_id claims p husr] at hext
    cases hext
    rfl
  · intro s u hp hs hext
    have husr : username_of claims = some s := by unfold username_of; rw [hp, hs]
    rw [extract_user_eq client_id claims s husr] at hext
    cases hext
    rfl

/-- C9 witness: `preferred_username` absent and `sub = "abc-123"` yields
`username = "abc-123"`. -/
theorem extract_user_username_fallback_witness :
    (extract_user_from_claims "document-api"
      ⟨none, some "abc-123", none, none, none, none⟩ |>.getD demoUser).username =
      "abc-123" :=
  (extract_user_username_fallback "document-api"
      ⟨none, some "abc-123", none, none, none, none⟩).2 "abc-123" _ rfl rfl rfl

/-! ### C3 -/

/-- C3: `get_jwks` serves the previously cached key set when the remote
fetch fails and a cache exists, raises IdentityProviderUnavailable (503)
when the fetch fails with an empty cache, and raises it only in that
no-cache-and-fetch-failed case. -/
theorem get_jwks_stale_fallback_and_unavailable (st : AuthState) (t : Nat) :
    (∀ cached, st.jwks_cache = some cached →
       (get_jwks st t (.error ())).1 = .ok cached) ∧
    (st.jwks_cache = none →
       get_jwks st t (.error ()) = (.error idpUnavailableExc, st)) ∧
    (∀ fetch e st2, get_jwks st t fetch = (.error e, st2) →
       e = idpUnavailableExc ∧ st.jwks_cache = none ∧ fetch = .error ()) := by
  refine ⟨?_, ?_, ?_⟩
  · intro cached hc
    unfold get_jwks
    rw [hc]
    by_cases hfresh : t - st.jwks_cache_time < jwks_cache_duration
    · simp [hfresh]
    · simp [hfresh]
  · intro hc
    unfold get_jwks
    rw [hc]
  · intro fetch e st2 hres
    unfold get_jwks at hres
    cases hc : st.jwks_cache with
    | some cached =>
        rw [hc] at hres
        by_cases hfresh : t - st.jwks_cache_time < jwks_cache_duration
        · simp [hfresh] at hres
        · cases fetch with
          | ok fresh => simp [hfresh] at hres
          | error u => simp [hfresh] at hres
    | none =>
        rw [hc] at hres
        cases fetch with
        | ok fresh => simp at hres
        | error u =>
            simp at hres
            exact ⟨hres.1.symm, rfl, rfl⟩

/-- C3 witness: a failed fetch with the populated `freshState` cache
serves the cached set; a failed fetch with an empty cache raises the
503. -/
theorem get_jwks_stale_fallback_and_unavailable_witness :
    (get_jwks freshState 5000 (.error ())).1 = .ok demoJWKS ∧
    get_jwks ⟨none, 0⟩ 5000 (.error ()) = (.error idpUnavailableExc, ⟨none, 0⟩) :=
  ⟨(get_jwks_stale_fallback_and_unavailable freshState 5000).1 demoJWKS rfl,
   (get_jwks_stale_fallback_and_unavailable ⟨none, 0⟩ 5000).2.1 rfl⟩

/-! ### C4 -/

/-- C4: `get_signing_key` performs at most one forced cache refresh per
call; when the token's key id misses the first key set, exactly one
refresh and one retry happen: if the refreshed set contains the key id
the key is returned (forced-refresh count 1), and if it is still absent
the call fails with the 401 key-not-found exception (still count 1). -/
theorem get_signing_key_single_refresh (st : AuthState) (t : Nat)
    (hdr : Except Unit JoseHeader) (f1 f2 : Except Unit JWKS) :
    ((get_signing_key st t hdr f1 f2).forced_refreshes ≤ 1) ∧
    (∀ h kid j1 st1 j2 st2,
       hdr = .ok h → h.kid = some kid → kid ≠ "" →
       get_jwks st t f1 = (.ok j1, st1) →
       find_key j1.keys kid = none →
       get_jwks ⟨none, st1.jwks_cache_time⟩ t f2 = (.ok j2, st2) →
       ((∀ key, find_key j2.keys kid = some key →
           get_signing_key st t hdr f1 f2 = ⟨.ok key, st2, 1⟩) ∧
        (find_key j2.keys kid = none →
           get_signing_key st t hdr f1 f2 = ⟨.error keyNotFoundExc, st2, 1⟩))) := by
  constructor
  · unfold get_signing_key
    repeat' split
    all_goals simp
  · intro h kid j1 st1 j2 st2 hhdr hkid hne hj1 hfind1 hj2
    constructor
    · intro key hfind2
      unfold get_signing_key
      simp only [hhdr, hkid, if_neg hne, hj1, hfind1, hj2, hfind2]
    · intro hfind2
      unfold get_signing_key
      simp only [hhdr, hkid, if_neg hne, hj1, hfind1, hj2, hfind2]

/-- A second signing key, unknown to the initial cache, and the key set
obtained by the forced refresh that contains it. -/
def rotatedKey : JWK := ⟨some "kid2", "rsa-modulus-2"⟩

def rotatedJWKS : JWKS := ⟨[demoKey, rotatedKey]⟩

/-- C4 witness: a token whose key id `kid2` misses the cached set is
resolved by exactly one forced refresh whose fetch returns the rotated
key set. -/
theorem get_signing_key_single_refresh_witness :
    get_signing_key freshState 100 (.ok ⟨"RS256", some "kid2"⟩)
      (.error ()) (.ok rotatedJWKS) = ⟨.ok rotatedKey, ⟨some rotatedJWKS, 100⟩, 1⟩ :=
  ((get_signing_key_single_refresh freshState 100 (.ok ⟨"RS256", some "kid2"⟩)
      (.error ()) (.ok rotatedJWKS)).2 ⟨"RS256", some "kid2"⟩ "kid2" demoJWKS
      freshState rotatedJWKS ⟨some rotatedJWKS, 100⟩ rfl rfl (by decide) rfl rfl
      rfl).1 rotatedKey rfl

/-! ### C10 -/

/-- C10: on a key-id miss, `get_signing_key` clears the cache before the
forced refresh; if that refresh's fetch fails, the call raises the 503
IdentityProviderUnavailable exception (not a 401) and leaves the cache
empty, so a later `get_jwks` whose fetch also fails has no stale cache
to fall back on and raises the same 503. -/
theorem get_signing_key_failed_refresh_discards_cache (st : AuthState)
    (t : Nat) (h : JoseHeader) (kid : String) (cached : JWKS)
    (f1 : Except Unit JWKS)
    (hkid : h.kid = some kid) (hne : kid ≠ "")
    (hc : st.jwks_cache = some cached)
    (hfresh : t - st.jwks_cache_time < jwks_cache_duration)
    (hmiss : find_key cached.keys kid = none) :
    get_signing_key st t (.ok h) f1 (.error ()) =
      ⟨.error idpUnavailableExc, ⟨none, st.jwks_cache_time⟩, 1⟩ ∧
    (∀ t2, get_jwks ⟨none, st.jwks_cache_time⟩ t2 (.error ()) =
      (.error idpUnavailableExc, ⟨none, st.jwks_cache_time⟩)) := by
  have hj1 : get_jwks st t f1 = (.ok cached, st) := by
    unfold get_jwks
    rw [hc]
    simp [hfresh]
  have hj2 : ∀ t2, get_jwks (⟨none, st.jwks_cache_time⟩ : AuthState) t2
      (.error ()) = (.error idpUnavailableExc, ⟨none, st.jwks_cache_time⟩) := by
    intro t2
    unfold get_jwks
    rfl
  refine ⟨?_, hj2⟩
  unfold get_signing_key
  simp only [hkid, if_neg hne, hj1, hmiss, hj2 t]

/-- C10 witness: key id `kid2` misses the fresh cache and the forced
refresh's fetch fails: the 503 is raised and the cache is left empty. -/
theorem get_signing_key_failed_refresh_discards_cache_witness :
    get_signing_key freshState 100 (.ok ⟨"RS256", some "kid2"⟩)
        (.error ()) (.error ()) =
      ⟨.error idpUnavailableExc, ⟨none, 0⟩, 1⟩ :=
  (get_signing_key_failed_refresh_discards_cache freshState 100
    ⟨"RS256", some "kid2"⟩ "kid2" demoJWKS (.error ()) rfl (by decide) rfl
    (by decide) rfl).1

/-! ### C2 -/

/-- C2: when the signing key is located and the token decodes up to its
`exp` check (allowed algorithm, valid signature, well-formed `iat`) but
`exp` is in the past, `validate_token` raises the dedicated 401
ExpiredToken exception with detail "Token has expired" — not the generic
invalid-credentials 401. -/
theorem validate_token_expired_distinct (st : AuthState) (t : Nat)
    (tok : TokenData) (f1 f2 : Except Unit JWKS) (va vi : Bool)
    (key : JWK) (st1 : AuthState) (n : Nat) (h : JoseHeader)
    (hkey : get_signing_key st t tok.header f1 f2 = ⟨.ok key, st1, n⟩)
    (hh : tok.header = .ok h)
    (halg : keycloakAlgorithms.contains h.alg = true)
    (hsig : tok.sigValidFor key = true)
    (hiat : tok.iatOk = true)
    (hexp : tok.exp < (t : Int)) :
    validate_token st t tok f1 f2 va vi = (.error expiredTokenExc, st1) ∧
    ∀ msg, expiredTokenExc ≠ invalidCredentialsExc msg := by
  constructor
  · unfold validate_token
    rw [hkey]
    unfold jose_decode
    simp only [hh, halg, hsig, hiat, if_pos hexp]
    simp
  · intro msg hcontra
    have hdetail : expiredTokenExc.detail = (invalidCredentialsExc msg).detail :=
      congrArg HTTPException.detail hcontra
    have hlen := congrArg String.length hdetail
    simp only [invalidCredentialsExc, expiredTokenExc, String.length_append] at hlen
    have h17 : ("Token has expired" : String).length = 17 := rfl
    have h32 : ("Could not validate credentials: " : String).length = 32 := rfl
    rw [h17, h32] at hlen
    omega

/-- A token with a valid RS256 signature whose `exp` (50) is in the
past relative to the sample validation time (100). -/
def expiredTok : TokenData :=
  { header := .ok ⟨"RS256", some "kid1"⟩
    sigValidFor := fun _ => true
    iatOk := true
    exp := 50
    audOk := true
    issOk := true
    payload := emptyClaims }

/-- C2 witness: validating `expiredTok` at time 100 against the fresh
cache yields the dedicated expired 401. -/
theorem validate_token_expired_distinct_witness :
    validate_token freshState 100 expiredTok (.error ()) (.error ()) true true =
      (.error expiredTokenExc, freshState) :=
  (validate_token_expired_distinct freshState 100 expiredTok (.error ())
    (.error ()) true true demoKey freshState 0 ⟨"RS256", some "kid1"⟩
    rfl rfl rfl rfl rfl (by decide)).1

/-! ### C5 -/

/-- C5: `validate_token` hands `jwt.decode` the fixed algorithm list
`["RS256"]` fixed at construction, so a token whose header declares any
other algorithm (such as "none" or "HS256") fails with the generic
invalid-credentials 401 raised for the disallowed-algorithm `JWTError`,
regardless of every other token property. -/
theorem validate_token_pins_rs256 (st : AuthState) (t : Nat)
    (tok : TokenData) (f1 f2 : Except Unit JWKS) (va vi : Bool)
    (key : JWK) (st1 : AuthState) (n : Nat) (h : JoseHeader)
    (hkey : get_signing_key st t tok.header f1 f2 = ⟨.ok key, st1, n⟩)
    (hh : tok.header = .ok h)
    (halg : h.alg ≠ "RS256") :
    keycloakAlgorithms = ["RS256"] ∧
    validate_token st t tok f1 f2 va vi =
      (.error (invalidCredentialsExc "The specified alg value is not allowed"),
       st1) := by
  refine ⟨rfl, ?_⟩
  have hcontains : keycloakAlgorithms.contains h.alg = false := by
    simp [keycloakAlgorithms, halg]
  unfold validate_token
  rw [hkey]
  unfold jose_decode
  simp only [hh, hcontains]
  simp

/-- A token declaring the symmetric algorithm HS256 in its header. -/
def hs256Tok : TokenData :=
  { header := .ok ⟨"HS256", some "kid1"⟩
    sigValidFor := fun _ => true
    iatOk := true
    exp := 10 ^ 10
    audOk := true
    issOk := true
    payload := emptyClaims }

/-- C5 witness: a token declaring HS256 is rejected with the
disallowed-algorithm invalid-credentials 401. -/
theorem validate_token_pins_rs256_witness :
    validate_token freshState 100 hs256Tok (.error ()) (.error ()) true true =
      (.error (invalidCredentialsExc "The specified alg value is not allowed"),
       freshState) :=
  (validate_token_pins_rs256 freshState 100 hs256Tok (.error ()) (.error ())
    true true demoKey freshState 0 ⟨"HS256", some "kid1"⟩ rfl rfl
    (by decide)).2

/-! ### C6 -/

/-- C6: `introspect_token` raises the 401 inactive-token exception on
every successful response whose body lacks `active == true` (absent or
false), raises the 503 introspection-failed exception on every network
failure or HTTP error status, and returns the response body when
`active` is true. -/
theorem introspect_token_active_gate :
    (∀ r : IntrospectResponse, r.status_error = false →
       r.body.active ≠ some true →
       introspect_token (.ok r) = .error tokenNotActiveExc) ∧
    (introspect_token (.error ()) = .error introspectFailedExc) ∧
    (∀ r : IntrospectResponse, r.status_error = true →
       introspect_token (.ok r) = .error introspectFailedExc) ∧
    (∀ r : IntrospectResponse, r.status_error = false →
       r.body.active = some true →
       introspect_token (.ok r) = .ok r.body) := by
  refine ⟨?_, rfl, ?_, ?_⟩
  · intro r hs hact
    have hget : r.body.active.getD false = false := by
      cases ha : r.body.active with
      | none => rfl
      | some b =>
          cases b with
          | false => rfl
          | true => exact absurd ha hact
    unfold introspect_token
    simp [hs, hget]
  · intro r hs
    unfold introspect_token
    simp [hs]
  · intro r hs hact
    unfold introspect_token
    simp [hs, hact]

/-- C6 witness: a 200 response with body `{"active": false}` yields the
401 inactive-token exception. -/
theorem introspect_token_active_gate_witness :
    introspect_token (.ok ⟨false, ⟨some false, emptyClaims⟩⟩) =
      .error tokenNotActiveExc :=
  introspect_token_active_gate.1 ⟨false, ⟨some false, emptyClaims⟩⟩ rfl
    (by decide)

end Keycloak
